import Mathlib

/-!
Verification of the readelf ELF32 structural decoder.

Shallow embedding of the Rust sources (src/elf/elfhdr.rs, src/elf/symtbl.rs,
src/elf/reloc.rs, src/elf/sechdr.rs, src/parser.rs, src/main.rs).
Machine integers (u8, u16, u32) are embedded as Nat; wherever a Rust
operation can wrap, the embedding applies an explicit reduction modulo
2 to the 8 or 2 to the 32. Rust match expressions are embedded as
if-then-else chains tested in arm order.
-/

namespace Readelf

-- ===== src/elf/elfhdr.rs =====

/-- No file type. -/
def ET_NONE : Nat := 0
/-- Relocatable file. -/
def ET_REL : Nat := 1
/-- Executable file. -/
def ET_EXEC : Nat := 2
/-- Shared object file. -/
def ET_DYN : Nat := 3
/-- Core file. -/
def ET_CORE : Nat := 4
/-- Processor-specific lower bound. -/
def ET_LOPROC : Nat := 0xff00
/-- Processor-specific upper bound. -/
def ET_HIPROC : Nat := 0xffff

/-- No machine. -/
def EM_NONE : Nat := 0
/-- AT and T WE 32100. -/
def EM_M32 : Nat := 1
/-- SPARC. -/
def EM_SPARC : Nat := 2
/-- Intel 80386. -/
def EM_386 : Nat := 3
/-- Motorola 68000. -/
def EM_68K : Nat := 4
/-- Motorola 88000. -/
def EM_88K : Nat := 5
/-- Intel 80860. -/
def EM_860 : Nat := 7
/-- MIPS RS3000. -/
def EM_MIPS : Nat := 8

/-- ELF magic number bytes, from elfhdr.rs. -/
def ELF_MAGIC : List Nat := [0x7f, 0x45, 0x4c, 0x46]

/-- Index of the class byte in e_ident. -/
def EI_CLASS : Nat := 4
/-- Invalid class. -/
def ELFCLASSNONE : Nat := 0
/-- 32-bit objects. -/
def ELFCLASS32 : Nat := 1
/-- 64-bit objects. -/
def ELFCLASS64 : Nat := 2

/-- Index of the data-encoding byte in e_ident. -/
def EI_DATA : Nat := 5
/-- Invalid data encoding. -/
def ELFDATANONE : Nat := 0
/-- Little endian. -/
def ELFDATA2LSB : Nat := 1
/-- Big endian. -/
def ELFDATA2MSB : Nat := 2

/-- Index of the version byte in e_ident. -/
def EI_VERSION : Nat := 6
/-- Invalid version. -/
def EV_NONE : Nat := 0
/-- Current version. -/
def EV_CURRENT : Nat := 1

/-- Size of the e_ident array. -/
def EI_NIDENT : Nat := 16

/-- ELF header struct Elf32_Ehdr from elfhdr.rs. The u8 array e_ident is a
list of byte values; all other fields are u16 or u32 values embedded as Nat. -/
structure Elf32_Ehdr where
  e_ident : List Nat
  e_type : Nat
  e_machine : Nat
  e_version : Nat
  e_entry : Nat
  e_phoff : Nat
  e_shoff : Nat
  e_flags : Nat
  e_ehsize : Nat
  e_phentsize : Nat
  e_phnum : Nat
  e_shentsize : Nat
  e_shnum : Nat
  e_shstrndx : Nat
  deriving Repr, DecidableEq

-- ===== src/elf/symtbl.rs =====

/-- Extracts the binding information from the symbol info (info >> 4 on u8). -/
def elf32_st_bind (info : Nat) : Nat :=
  info >>> 4

/-- Extracts the type information from the symbol info (info and 0xf on u8). -/
def elf32_st_type (info : Nat) : Nat :=
  info &&& 0xf

/-- Combines binding and type information: (bind << 4) or (typ and 0xf) on u8.
The u8 shift discards bits shifted past bit 7, hence the mod 256. -/
def elf32_st_info (bind typ : Nat) : Nat :=
  ((bind <<< 4) % 256) ||| (typ &&& 0xf)

-- ===== src/elf/reloc.rs =====

/-- Extracts the symbol index from the relocation info (info >> 8 on u32). -/
def elf32_r_sym (info : Nat) : Nat :=
  info >>> 8

/-- Extracts the type from the relocation info ((info and 0xff) as u8). -/
def elf32_r_type (info : Nat) : Nat :=
  info &&& 0xff

/-- Combines the symbol index and type: (sym << 8) or (typ as u32) on u32.
The u32 shift discards bits shifted past bit 31, hence the mod 2 to the 32. -/
def elf32_r_info (sym typ : Nat) : Nat :=
  ((sym <<< 8) % 4294967296) ||| typ

-- ===== helper lemmas on Nat bit operations =====

/-- Masking with 15 is reduction mod 16. -/
theorem and_fifteen (x : Nat) : x &&& 15 = x % 16 := by
  have h := Nat.and_pow_two_sub_one_eq_mod x 4
  norm_num at h
  exact h

/-- Masking with 255 is reduction mod 256. -/
theorem and_two_five_five (x : Nat) : x &&& 255 = x % 256 := by
  have h := Nat.and_pow_two_sub_one_eq_mod x 8
  norm_num at h
  exact h

/-- Bitwise or of a multiple of 2 to the k with a value below 2 to the k
is plain addition. -/
theorem mul_pow_or_eq_add {b : Nat} (k a : Nat) (hb : b < 2 ^ k) :
    ((2 ^ k) * a) ||| b = (2 ^ k) * a + b :=
  (Nat.mul_add_lt_is_or hb a).symm

/-- Claim C1: packing 4-bit binding and type values and unpacking them is
the identity, and packing a 24-bit symbol index with an 8-bit relocation
type and unpacking them is the identity. -/
theorem c1_pack_unpack_roundtrip (b t i rt : Nat)
    (hb : b ≤ 0xF) (ht : t ≤ 0xF) (hi : i < 2 ^ 24) (hrt : rt < 2 ^ 8) :
    elf32_st_bind (elf32_st_info b t) = b ∧
    elf32_st_type (elf32_st_info b t) = t ∧
    elf32_r_sym (elf32_r_info i rt) = i ∧
    elf32_r_type (elf32_r_info i rt) = rt := by
  have hpow24 : (2 : Nat) ^ 24 = 16777216 := by norm_num
  have hpow8 : (2 : Nat) ^ 8 = 256 := by norm_num
  rw [hpow24] at hi
  rw [hpow8] at hrt
  have hst : elf32_st_info b t = 16 * b + t := by
    unfold elf32_st_info
    rw [Nat.shiftLeft_eq, and_fifteen]
    have h1 : b * 2 ^ 4 % 256 = 2 ^ 4 * b := by norm_num; omega
    rw [h1, mul_pow_or_eq_add 4 b (by omega)]
    norm_num
    all_goals omega
  have hr : elf32_r_info i rt = 256 * i + rt := by
    unfold elf32_r_info
    rw [Nat.shiftLeft_eq]
    have h1 : i * 2 ^ 8 % 4294967296 = 2 ^ 8 * i := by norm_num; omega
    rw [h1, mul_pow_or_eq_add 8 i (by omega)]
    norm_num
  refine ⟨?_, ?_, ?_, ?_⟩
  · rw [hst]
    unfold elf32_st_bind
    rw [Nat.shiftRight_eq_div_pow]
    norm_num
    all_goals omega
  · rw [hst]
    unfold elf32_st_type
    rw [and_fifteen]
    omega
  · rw [hr]
    unfold elf32_r_sym
    rw [Nat.shiftRight_eq_div_pow]
    norm_num
    all_goals omega
  · rw [hr]
    unfold elf32_r_type
    rw [and_two_five_five]
    omega

/-- Witness for claim C1, at binding 11, type 2, symbol index 5, type 7. -/
theorem c1_pack_unpack_roundtrip_witness :
    elf32_st_bind (elf32_st_info 11 2) = 11 ∧
    elf32_st_type (elf32_st_info 11 2) = 2 ∧
    elf32_r_sym (elf32_r_info 5 7) = 5 ∧
    elf32_r_type (elf32_r_info 5 7) = 7 :=
  c1_pack_unpack_roundtrip 11 2 5 7 (by decide) (by decide) (by norm_num)
    (by norm_num)

-- ===== src/parser.rs =====

/-- ELF parser struct holding the decoded header. -/
structure ElfParser where
  hdr : Elf32_Ehdr
  deriving Repr, DecidableEq

/-- Constructor ElfParser::new. -/
def ElfParser.new (hdr : Elf32_Ehdr) : ElfParser :=
  { hdr := hdr }

/-- Get ELF header class string representation, as a match on
e_ident[EI_CLASS] tested in source arm order. -/
def ElfParser.get_class (p : ElfParser) : String :=
  if p.hdr.e_ident.getD EI_CLASS 0 = ELFCLASS32 then "ELF32"
  else if p.hdr.e_ident.getD EI_CLASS 0 = ELFCLASS64 then "ELF64"
  else if p.hdr.e_ident.getD EI_CLASS 0 = ELFCLASSNONE then "None"
  else "?"

/-- Get ELF header data string representation. -/
def ElfParser.get_data (p : ElfParser) : String :=
  if p.hdr.e_ident.getD EI_DATA 0 = ELFDATA2LSB then "Little endian"
  else if p.hdr.e_ident.getD EI_DATA 0 = ELFDATA2MSB then "Big endian"
  else if p.hdr.e_ident.getD EI_DATA 0 = ELFDATANONE then "None"
  else "?"

/-- Get ELF header version string representation. -/
def ElfParser.get_version (p : ElfParser) : String :=
  if p.hdr.e_ident.getD EI_VERSION 0 = EV_CURRENT then "1, (current)"
  else if p.hdr.e_ident.getD EI_VERSION 0 = EV_NONE then "0, (invalid)"
  else "?, (unknown)"

/-- Get ELF header type string representation. -/
def ElfParser.get_type (p : ElfParser) : String :=
  if p.hdr.e_type = ET_REL then "REL (Relocatable file)"
  else if p.hdr.e_type = ET_EXEC then "EXEC (Executable file)"
  else if p.hdr.e_type = ET_DYN then "DYN (Shared object file)"
  else if p.hdr.e_type = ET_CORE then "CORE (Core file)"
  else if p.hdr.e_type = ET_LOPROC then "LOPROC (Processor-specific)"
  else if p.hdr.e_type = ET_HIPROC then "HIPROC (Processor-specific)"
  else if p.hdr.e_type = ET_NONE then "NONE (No file type)"
  else "? (Unknown)"

/-- Get ELF header machine string representation. -/
def ElfParser.get_machine (p : ElfParser) : String :=
  if p.hdr.e_machine = EM_NONE then "No machine"
  else if p.hdr.e_machine = EM_M32 then "AT&T WE 32100"
  else if p.hdr.e_machine = EM_SPARC then "SUN SPARC"
  else if p.hdr.e_machine = EM_386 then "Intel 80386"
  else if p.hdr.e_machine = EM_68K then "Motorola m68k family"
  else if p.hdr.e_machine = EM_88K then "Motorola m88k family"
  else if p.hdr.e_machine = EM_860 then "Intel 80860"
  else if p.hdr.e_machine = EM_MIPS then "MIPS R3000 big-endian"
  else "?"

/-- A header identical to a minimal well-formed ELF32 little-endian header
except that e_type is the given value; used to probe get_type. -/
def ehdrWithType (t : Nat) : Elf32_Ehdr :=
  { e_ident := [0x7f, 0x45, 0x4c, 0x46, 1, 1, 1, 0, 0, 0, 0, 0, 0, 0, 0, 0]
    e_type := t
    e_machine := 3
    e_version := 1
    e_entry := 0
    e_phoff := 0
    e_shoff := 0
    e_flags := 0
    e_ehsize := 52
    e_phentsize := 32
    e_phnum := 0
    e_shentsize := 40
    e_shnum := 0
    e_shstrndx := 0 }

/-- Claim C2 counterexample: the value 0xff01 lies strictly inside the
processor-specific reserved range ET_LOPROC .. ET_HIPROC, yet get_type
reports the unknown label for it, not a processor-specific label. -/
theorem c2_reserved_range_counterexample :
    ET_LOPROC ≤ 0xff01 ∧ 0xff01 ≤ ET_HIPROC ∧
    (ElfParser.new (ehdrWithType 0xff01)).get_type = "? (Unknown)" ∧
    "? (Unknown)" ≠ "LOPROC (Processor-specific)" ∧
    "? (Unknown)" ≠ "HIPROC (Processor-specific)" :=
  ⟨by decide, by decide, by decide, by decide, by decide⟩

/-- Claim C2 (amended): within the reserved range ET_LOPROC .. ET_HIPROC,
only the two boundary values report a processor-specific label; every
interior value reports the unknown label; the two outcomes are
distinguishable. -/
theorem c2_reserved_range_amended (v : Nat)
    (hlo : ET_LOPROC ≤ v) (hhi : v ≤ ET_HIPROC) :
    (v = ET_LOPROC →
      (ElfParser.new (ehdrWithType v)).get_type =
        "LOPROC (Processor-specific)") ∧
    (v = ET_HIPROC →
      (ElfParser.new (ehdrWithType v)).get_type =
        "HIPROC (Processor-specific)") ∧
    (v ≠ ET_LOPROC → v ≠ ET_HIPROC →
      (ElfParser.new (ehdrWithType v)).get_type = "? (Unknown)") ∧
    "LOPROC (Processor-specific)" ≠ "? (Unknown)" ∧
    "HIPROC (Processor-specific)" ≠ "? (Unknown)" := by
  simp only [ET_LOPROC, ET_HIPROC] at hlo hhi
  refine ⟨?_, ?_, ?_, by decide, by decide⟩
  · intro h
    subst h
    decide
  · intro h
    subst h
    decide
  · intro h1 h2
    simp only [ET_LOPROC, ET_HIPROC] at h1 h2
    simp only [ElfParser.get_type, ElfParser.new, ehdrWithType]
    unfold ET_REL ET_EXEC ET_DYN ET_CORE ET_LOPROC ET_HIPROC ET_NONE
    split_ifs <;> first | rfl | omega

/-- Witness for the amended claim C2, at the boundary value 0xff00. -/
theorem c2_reserved_range_amended_witness :
    (0xff00 = ET_LOPROC →
      (ElfParser.new (ehdrWithType 0xff00)).get_type =
        "LOPROC (Processor-specific)") ∧
    (0xff00 = ET_HIPROC →
      (ElfParser.new (ehdrWithType 0xff00)).get_type =
        "HIPROC (Processor-specific)") ∧
    (0xff00 ≠ ET_LOPROC → 0xff00 ≠ ET_HIPROC →
      (ElfParser.new (ehdrWithType 0xff00)).get_type = "? (Unknown)") ∧
    "LOPROC (Processor-specific)" ≠ "? (Unknown)" ∧
    "HIPROC (Processor-specific)" ≠ "? (Unknown)" :=
  c2_reserved_range_amended 0xff00 (by decide) (by decide)

/-- Claim C5: the five symbolic interpreters of the header fields are total;
every raw field value resolves to one of the finitely many defined labels,
and unrecognized codes fall back to a defined unknown label. -/
theorem c5_interpreters_total (p : ElfParser) :
    p.get_class ∈ ["ELF32", "ELF64", "None", "?"] ∧
    p.get_data ∈ ["Little endian", "Big endian", "None", "?"] ∧
    p.get_version ∈ ["1, (current)", "0, (invalid)", "?, (unknown)"] ∧
    p.get_type ∈ ["REL (Relocatable file)", "EXEC (Executable file)",
      "DYN (Shared object file)", "CORE (Core file)",
      "LOPROC (Processor-specific)", "HIPROC (Processor-specific)",
      "NONE (No file type)", "? (Unknown)"] ∧
    p.get_machine ∈ ["No machine", "AT&T WE 32100", "SUN SPARC",
      "Intel 80386", "Motorola m68k family", "Motorola m88k family",
      "Intel 80860", "MIPS R3000 big-endian", "?"] := by
  refine ⟨?_, ?_, ?_, ?_, ?_⟩
  · unfold ElfParser.get_class
    split_ifs <;> simp
  · unfold ElfParser.get_data
    split_ifs <;> simp
  · unfold ElfParser.get_version
    split_ifs <;> simp
  · unfold ElfParser.get_type
    split_ifs <;> simp
  · unfold ElfParser.get_machine
    split_ifs <;> simp

-- ===== src/elf/sechdr.rs =====

/-- Inactive section header. -/
def SHT_NULL : Nat := 0
/-- Program-defined information. -/
def SHT_PROGBITS : Nat := 1
/-- Symbol table. -/
def SHT_SYMTAB : Nat := 2
/-- String table. -/
def SHT_STRTAB : Nat := 3
/-- Relocation entries with explicit addends. -/
def SHT_RELA : Nat := 4
/-- Symbol hash table. -/
def SHT_HASH : Nat := 5
/-- Dynamic linking information. -/
def SHT_DYNAMIC : Nat := 6
/-- File-marking information. -/
def SHT_NOTE : Nat := 7
/-- Section occupying no file space. -/
def SHT_NOBITS : Nat := 8
/-- Relocation entries without explicit addends. -/
def SHT_REL : Nat := 9
/-- Reserved with unspecified semantics. -/
def SHT_SHLIB : Nat := 10
/-- Dynamic linking symbol table. -/
def SHT_DYNSYM : Nat := 11

/-- Writable during execution. -/
def SHF_WRITE : Nat := 0x1
/-- Occupies memory during execution. -/
def SHF_ALLOC : Nat := 0x2
/-- Holds executable machine instructions. -/
def SHF_EXECINSTR : Nat := 0x4
/-- Mask of processor-specific flag bits. -/
def SHF_MASKPROC : Nat := 0xf0000000

/-- ELF section header struct Elf32_Shdr from sechdr.rs; every field is a
u32 value embedded as Nat. -/
structure Elf32_Shdr where
  sh_name : Nat
  sh_type : Nat
  sh_flags : Nat
  sh_addr : Nat
  sh_offset : Nat
  sh_size : Nat
  sh_link : Nat
  sh_info : Nat
  sh_addralign : Nat
  sh_entsize : Nat
  deriving Repr, DecidableEq

/-- Check if a section is .bss. -/
def is_bss_section (sec : Elf32_Shdr) (name : String) : Bool :=
  sec.sh_type == SHT_NOBITS && sec.sh_flags == 0 && name == ".bss"

/-- Check if a section is .data. -/
def is_data_section (sec : Elf32_Shdr) (name : String) : Bool :=
  sec.sh_type == SHT_PROGBITS
    && (sec.sh_flags &&& (SHF_ALLOC ||| SHF_WRITE)) == (SHF_ALLOC ||| SHF_WRITE)
    && name == ".data"

/-- Check if a section is .data1. -/
def is_data1_section (sec : Elf32_Shdr) (name : String) : Bool :=
  sec.sh_type == SHT_PROGBITS
    && (sec.sh_flags &&& (SHF_ALLOC ||| SHF_WRITE)) == (SHF_ALLOC ||| SHF_WRITE)
    && name == ".data1"

/-- Check if a section is .debug. -/
def is_debug_section (sec : Elf32_Shdr) (name : String) : Bool :=
  sec.sh_type == SHT_PROGBITS && sec.sh_flags == 0 && name == ".debug"

/-- Check if a section is .dynamic. -/
def is_dynamic_section (sec : Elf32_Shdr) (name : String) : Bool :=
  sec.sh_type == SHT_DYNAMIC && name == ".dynamic"

/-- Check if a section is .dynstr. -/
def is_dynstr_section (sec : Elf32_Shdr) (name : String) : Bool :=
  sec.sh_type == SHT_STRTAB
    && (sec.sh_flags &&& SHF_ALLOC) == SHF_ALLOC
    && name == ".dynstr"

/-- Check if a section is .dynsym. -/
def is_dynsym_section (sec : Elf32_Shdr) (name : String) : Bool :=
  sec.sh_type == SHT_DYNSYM
    && (sec.sh_flags &&& SHF_ALLOC) == SHF_ALLOC
    && name == ".dynsym"

/-- Check if a section is .fini. -/
def is_fini_section (sec : Elf32_Shdr) (name : String) : Bool :=
  sec.sh_type == SHT_PROGBITS
    && (sec.sh_flags &&& (SHF_ALLOC ||| SHF_EXECINSTR))
      == (SHF_ALLOC ||| SHF_EXECINSTR)
    && name == ".fini"

/-- Check if a section is .got. -/
def is_got_section (sec : Elf32_Shdr) (name : String) : Bool :=
  sec.sh_type == SHT_PROGBITS && name == ".got"

/-- Check if a section is .hash. -/
def is_hash_section (sec : Elf32_Shdr) (name : String) : Bool :=
  sec.sh_type == SHT_PROGBITS
    && (sec.sh_flags &&& SHF_ALLOC) == SHF_ALLOC
    && name == ".hash"

/-- Check if a section is .init. -/
def is_init_section (sec : Elf32_Shdr) (name : String) : Bool :=
  sec.sh_type == SHT_PROGBITS && name == ".init"

/-- Check if a section is .line. -/
def is_line_section (sec : Elf32_Shdr) (name : String) : Bool :=
  sec.sh_type == SHT_PROGBITS && sec.sh_flags == 0 && name == ".line"

/-- Check if a section is .note. -/
def is_note_section (sec : Elf32_Shdr) (name : String) : Bool :=
  sec.sh_type == SHT_NOTE && name == ".note"

/-- Check if a section is .plt. -/
def is_plt_section (sec : Elf32_Shdr) (name : String) : Bool :=
  sec.sh_type == SHT_PROGBITS && name == ".plt"

/-- Check if a section is .rodata. -/
def is_rodata_section (sec : Elf32_Shdr) (name : String) : Bool :=
  sec.sh_type == SHT_PROGBITS
    && (sec.sh_flags &&& SHF_ALLOC) == SHF_ALLOC
    && name == ".rodata"

/-- Check if a section is .rodata1. -/
def is_rodata1_section (sec : Elf32_Shdr) (name : String) : Bool :=
  sec.sh_type == SHT_PROGBITS
    && (sec.sh_flags &&& SHF_ALLOC) == SHF_ALLOC
    && name == ".rodata1"

/-- Check if a section is .shstrtab. -/
def is_shstrtab_section (sec : Elf32_Shdr) (name : String) : Bool :=
  sec.sh_type == SHT_STRTAB && name == ".shstrtab"

/-- Check if a section is .strtab. -/
def is_strtab_section (sec : Elf32_Shdr) (name : String) : Bool :=
  sec.sh_type == SHT_STRTAB && name == ".strtab"

/-- Check if a section is .symtab. -/
def is_symtab_section (sec : Elf32_Shdr) (name : String) : Bool :=
  sec.sh_type == SHT_SYMTAB && name == ".symtab"

/-- Check if a section is .text. -/
def is_text_section (sec : Elf32_Shdr) (name : String) : Bool :=
  sec.sh_type == SHT_PROGBITS
    && (sec.sh_flags &&& (SHF_ALLOC ||| SHF_EXECINSTR))
      == (SHF_ALLOC ||| SHF_EXECINSTR)
    && name == ".text"

/-- A mask test against both bits 1 and 2 succeeds exactly when each of the
two single-bit mask tests succeeds. -/
theorem and_mask_six_iff (f : Nat) :
    f &&& 6 = 6 ↔ (f &&& 2 = 2 ∧ f &&& 4 = 4) := by
  have h2 := Nat.and_two_pow f 1
  have h4 := Nat.and_two_pow f 2
  have h6 : f &&& 6 = (f &&& 2) ||| (f &&& 4) := by
    have hm : (6 : Nat) = 2 ||| 4 := by decide
    rw [hm, Nat.and_or_distrib_left]
  norm_num at h2 h4
  rw [h6, h2, h4]
  cases hb1 : f.testBit 1 <;> cases hb2 : f.testBit 2 <;> simp

/-- Claim C6: the symbol-info pack function is total and silently truncates;
for all byte inputs, also out-of-range binding values, it equals the masked
formula reduced modulo 256. -/
theorem c6_st_info_truncates (bind typ : Nat)
    (_hb : bind < 256) (_ht : typ < 256) :
    elf32_st_info bind typ = ((bind <<< 4) ||| (typ &&& 0xF)) % 256 := by
  unfold elf32_st_info
  rw [Nat.shiftLeft_eq, and_fifteen]
  have h1 : bind * 2 ^ 4 % 256 = 2 ^ 4 * (bind % 16) := by
    norm_num
    all_goals omega
  have h2 : bind * 2 ^ 4 = 2 ^ 4 * bind := by ring
  rw [h1, h2, mul_pow_or_eq_add 4 (bind % 16) (by omega),
    mul_pow_or_eq_add 4 bind (by omega)]
  norm_num
  all_goals omega

/-- Witness for claim C6, at binding 171 (out of the 4-bit range) and
type 205. -/
theorem c6_st_info_truncates_witness :
    elf32_st_info 171 205 = ((171 <<< 4) ||| (205 &&& 0xF)) % 256 :=
  c6_st_info_truncates 171 205 (by norm_num) (by norm_num)

/-- Claim C7: is_text_section holds exactly for sections of type
SHT_PROGBITS whose flags contain both SHF_ALLOC and SHF_EXECINSTR and whose
name is exactly .text; in particular any section named .foo is rejected. -/
theorem c7_text_requires_signature_and_name :
    (∀ (s : Elf32_Shdr) (n : String),
      is_text_section s n = true ↔
        (s.sh_type = SHT_PROGBITS ∧
         s.sh_flags &&& SHF_ALLOC = SHF_ALLOC ∧
         s.sh_flags &&& SHF_EXECINSTR = SHF_EXECINSTR ∧
         n = ".text")) ∧
    (∀ s : Elf32_Shdr, is_text_section s ".foo" = false) := by
  constructor
  · intro s n
    unfold is_text_section
    simp only [Bool.and_eq_true, beq_iff_eq, SHT_PROGBITS, SHF_ALLOC,
      SHF_EXECINSTR]
    have hm : (2 : Nat) ||| 4 = 6 := by decide
    rw [hm, and_mask_six_iff s.sh_flags]
    tauto
  · intro s
    unfold is_text_section
    have hn : (".foo" == ".text") = false := by decide
    rw [hn, Bool.and_false]

/-- Claim C10: is_bss_section holds exactly for sections of type SHT_NOBITS
with flag word exactly zero and name exactly .bss; any section with a
nonzero flag word, such as the conventional SHF_ALLOC or SHF_WRITE flags,
is rejected even with matching type and name. -/
theorem c10_bss_requires_zero_flags :
    (∀ (s : Elf32_Shdr) (n : String),
      is_bss_section s n = true ↔
        (s.sh_type = SHT_NOBITS ∧ s.sh_flags = 0 ∧ n = ".bss")) ∧
    (∀ (s : Elf32_Shdr) (n : String),
      s.sh_flags ≠ 0 → is_bss_section s n = false) := by
  constructor
  · intro s n
    unfold is_bss_section
    simp only [Bool.and_eq_true, beq_iff_eq, SHT_NOBITS]
    tauto
  · intro s n h
    unfold is_bss_section
    rw [Bool.eq_false_iff]
    simp only [ne_eq, Bool.and_eq_true, beq_iff_eq]
    tauto

/-- Witness for claim C10: a section of type SHT_NOBITS named .bss but
carrying the conventional flags SHF_ALLOC or SHF_WRITE is not classified
as .bss. -/
theorem c10_bss_requires_zero_flags_witness :
    is_bss_section
      ⟨0, SHT_NOBITS, SHF_ALLOC ||| SHF_WRITE, 0, 0, 0, 0, 0, 0, 0⟩
      ".bss" = false :=
  c10_bss_requires_zero_flags.2
    ⟨0, SHT_NOBITS, SHF_ALLOC ||| SHF_WRITE, 0, 0, 0, 0, 0, 0, 0⟩
    ".bss" (by decide)

/-- Claim C9: unpacking a whole scalar and repacking the parts restores the
scalar, for the symbol info byte and for the relocation info word. -/
theorem c9_unpack_pack_identity (x w : Nat)
    (hx : x < 256) (hw : w < 2 ^ 32) :
    elf32_st_info (elf32_st_bind x) (elf32_st_type x) = x ∧
    elf32_r_info (elf32_r_sym w) (elf32_r_type w) = w := by
  have hpow32 : (2 : Nat) ^ 32 = 4294967296 := by norm_num
  rw [hpow32] at hw
  constructor
  · unfold elf32_st_info elf32_st_bind elf32_st_type
    rw [Nat.shiftRight_eq_div_pow, Nat.shiftLeft_eq, and_fifteen, and_fifteen]
    have h1 : x / 2 ^ 4 * 2 ^ 4 % 256 = 2 ^ 4 * (x / 16) := by
      norm_num
      all_goals omega
    rw [h1, mul_pow_or_eq_add 4 (x / 16) (by omega)]
    norm_num
    all_goals omega
  · unfold elf32_r_info elf32_r_sym elf32_r_type
    rw [Nat.shiftRight_eq_div_pow, Nat.shiftLeft_eq, and_two_five_five]
    have h1 : w / 2 ^ 8 * 2 ^ 8 % 4294967296 = 2 ^ 8 * (w / 256) := by
      norm_num
      all_goals omega
    rw [h1, mul_pow_or_eq_add 8 (w / 256) (by omega)]
    norm_num
    all_goals omega

/-- Witness for claim C9, at the byte 171 and the word 0x12345678. -/
theorem c9_unpack_pack_identity_witness :
    elf32_st_info (elf32_st_bind 171) (elf32_st_type 171) = 171 ∧
    elf32_r_info (elf32_r_sym 305419896) (elf32_r_type 305419896) =
      305419896 :=
  c9_unpack_pack_identity 171 305419896 (by norm_num) (by norm_num)

-- ===== section classifier family, indexed for claim C8 =====

/-- The twenty section classifier predicates of sechdr.rs, indexed in
source order. -/
def classifierAt (i : Fin 20) : Elf32_Shdr → String → Bool :=
  match i.val with
  | 0 => is_bss_section
  | 1 => is_data_section
  | 2 => is_data1_section
  | 3 => is_debug_section
  | 4 => is_dynamic_section
  | 5 => is_dynstr_section
  | 6 => is_dynsym_section
  | 7 => is_fini_section
  | 8 => is_got_section
  | 9 => is_hash_section
  | 10 => is_init_section
  | 11 => is_line_section
  | 12 => is_note_section
  | 13 => is_plt_section
  | 14 => is_rodata_section
  | 15 => is_rodata1_section
  | 16 => is_shstrtab_section
  | 17 => is_strtab_section
  | 18 => is_symtab_section
  | _ => is_text_section

/-- The section name demanded by each classifier, in the same order. -/
def classifierNameAt (i : Fin 20) : String :=
  match i.val with
  | 0 => ".bss"
  | 1 => ".data"
  | 2 => ".data1"
  | 3 => ".debug"
  | 4 => ".dynamic"
  | 5 => ".dynstr"
  | 6 => ".dynsym"
  | 7 => ".fini"
  | 8 => ".got"
  | 9 => ".hash"
  | 10 => ".init"
  | 11 => ".line"
  | 12 => ".note"
  | 13 => ".plt"
  | 14 => ".rodata"
  | 15 => ".rodata1"
  | 16 => ".shstrtab"
  | 17 => ".strtab"
  | 18 => ".symtab"
  | _ => ".text"

/-- Each classifier accepts only its own section name. -/
theorem classifier_name_of_true (i : Fin 20) (s : Elf32_Shdr) (n : String)
    (h : classifierAt i s n = true) : n = classifierNameAt i := by
  fin_cases i <;>
    simp only [classifierAt, classifierNameAt, is_bss_section,
      is_data_section, is_data1_section, is_debug_section,
      is_dynamic_section, is_dynstr_section, is_dynsym_section,
      is_fini_section, is_got_section, is_hash_section, is_init_section,
      is_line_section, is_note_section, is_plt_section, is_rodata_section,
      is_rodata1_section, is_shstrtab_section, is_strtab_section,
      is_symtab_section, is_text_section, Bool.and_eq_true, beq_iff_eq]
      at h ⊢ <;>
    tauto

/-- The twenty demanded section names are pairwise distinct. -/
theorem classifierNameAt_injective (i j : Fin 20)
    (h : classifierNameAt i = classifierNameAt j) : i = j := by
  revert h
  revert i j
  decide

/-- Claim C8: the classifier family assigns at most one identity; no two
distinct classifier predicates accept the same section and name. -/
theorem c8_classifiers_mutually_exclusive (s : Elf32_Shdr) (n : String)
    (i j : Fin 20) (hij : i ≠ j) :
    ¬(classifierAt i s n = true ∧ classifierAt j s n = true) := by
  rintro ⟨hi, hj⟩
  exact hij (classifierNameAt_injective i j
    ((classifier_name_of_true i s n hi).symm.trans
      (classifier_name_of_true j s n hj)))

/-- Witness for claim C8: the .bss and .data classifiers, on a concrete
NOBITS section named .bss, are not both satisfied. -/
theorem c8_classifiers_mutually_exclusive_witness :
    ¬(classifierAt 0 ⟨0, SHT_NOBITS, 0, 0, 0, 0, 0, 0, 0, 0⟩ ".bss" = true ∧
      classifierAt 1 ⟨0, SHT_NOBITS, 0, 0, 0, 0, 0, 0, 0, 0⟩ ".bss" = true) :=
  c8_classifiers_mutually_exclusive
    ⟨0, SHT_NOBITS, 0, 0, 0, 0, 0, 0, 0, 0⟩ ".bss" 0 1 (by decide)

-- ===== src/main.rs =====

/-- Read the byte at index i of a buffer; buffers are lists of byte
values. -/
def readByte (b : List Nat) (i : Nat) : Nat :=
  b.getD i 0

/-- Read a little-endian u16 at byte offset i. -/
def readLE16 (b : List Nat) (i : Nat) : Nat :=
  readByte b i + 256 * readByte b (i + 1)

/-- Read a little-endian u32 at byte offset i. -/
def readLE32 (b : List Nat) (i : Nat) : Nat :=
  readByte b i + 256 * readByte b (i + 1) + 65536 * readByte b (i + 2) +
    16777216 * readByte b (i + 3)

/-- The header decode performed by main in src/main.rs: an unconditional
reinterpretation of the first 52 bytes of the embedded buffer as a packed
Elf32_Ehdr on a little-endian host. It validates nothing and has no error
result. By Rust semantics the cast is defined only when the buffer holds at
least 52 bytes; the embedded buffer of main holds 528. -/
def decodeEhdrUnchecked (b : List Nat) : Elf32_Ehdr :=
  { e_ident := (List.range 16).map (readByte b)
    e_type := readLE16 b 16
    e_machine := readLE16 b 18
    e_version := readLE32 b 20
    e_entry := readLE32 b 24
    e_phoff := readLE32 b 28
    e_shoff := readLE32 b 32
    e_flags := readLE32 b 36
    e_ehsize := readLE16 b 40
    e_phentsize := readLE16 b 42
    e_phnum := readLE16 b 44
    e_shentsize := readLE16 b 46
    e_shnum := readLE16 b 48
    e_shstrndx := readLE16 b 50 }

/-- Decode error kinds mandated by the specification. -/
inductive ElfError where
  | Truncated
  | BadMagic
  deriving Repr, DecidableEq

/-- Modelled from the spec: the repository contains no bounds-checked or
magic-checked header decoder; sections 4.1 and 7 of the specification
mandate one that produces the typed record only when
offset + record_size fits the buffer, failing with Truncated otherwise,
and rejects a buffer whose first four bytes differ from ELF_MAGIC with
BadMagic before interpreting any other field. -/
def spec_decode_ehdr (b : List Nat) (off : Nat) :
    Except ElfError Elf32_Ehdr :=
  if off + 52 ≤ b.length then
    if (b.drop off).take 4 = ELF_MAGIC then
      Except.ok (decodeEhdrUnchecked (b.drop off))
    else
      Except.error ElfError.BadMagic
  else
    Except.error ElfError.Truncated

/-- Claim C3 (code bug): the spec-mandated decoder returns Truncated
whenever offset + 52 exceeds the buffer length, but the decode actually
performed by main is an unconditional cast with no Truncated result: it
yields a typed record from a buffer of zero bytes that no validation ever
inspected. -/
theorem c3_truncated_contract_vs_code :
    (∀ (b : List Nat) (off : Nat), b.length < off + 52 →
      spec_decode_ehdr b off = Except.error ElfError.Truncated) ∧
    (decodeEhdrUnchecked (List.replicate 528 0)).e_type = 0 := by
  constructor
  · intro b off h
    unfold spec_decode_ehdr
    rw [if_neg (by omega)]
  · decide

set_option maxRecDepth 4096 in
/-- Claim C4 (code bug): a 528-byte buffer of 0x01 bytes does not begin
with the ELF magic, so the spec-mandated decoder rejects it with BadMagic;
the decode actually performed by main still produces a typed record from
it and the class field of that record is then interpreted. -/
theorem c4_badmagic_contract_vs_code :
    (List.replicate 528 1).take 4 ≠ ELF_MAGIC ∧
    spec_decode_ehdr (List.replicate 528 1) 0 =
      Except.error ElfError.BadMagic ∧
    (decodeEhdrUnchecked (List.replicate 528 1)).e_type = 257 ∧
    (ElfParser.new (decodeEhdrUnchecked (List.replicate 528 1))).get_class =
      "ELF32" := by
  refine ⟨by decide, ?_, by decide, by decide⟩
  rfl

end Readelf
